import Mathlib

/-!
Shallow embedding of the address-book core of `personal_assistant.py`
(classes `Field`, `Name`, `Phone`, `Birthday`, `Record`, `AddressBook`).

Modelling conventions:
* Python exceptions are modelled with `Except PyErr`; `PyErr.valueError`
  stands for `ValueError` and `PyErr.attributeError` for `AttributeError`.
* Python `datetime.date` is the structure `PyDate`; `datetime.datetime` is
  `PyDate` plus a seconds-of-day field (`PyDateTime`).  Python compares
  `datetime` objects chronologically; on valid dates that order coincides
  with the order of `ts` (ordinal day number times 86400 plus the seconds),
  which is how comparisons are embedded.  `timedelta(days=7)` shifts `ts`
  by exactly 7 * 86400.
* `datetime.now()` inside `get_upcoming_birthdays` is an external input; the
  embedding makes it an explicit parameter `now : PyDateTime`.
* Python objects compare with `==` by identity when no `__eq__` is defined,
  which is the case for `Field`/`Phone`.  Object identity is modelled by
  tagging every `Phone` object with an allocation number `oid`: each record
  carries a counter `nextOid`, and every `Phone` object constructed during an
  operation on the record receives the current counter value, which is then
  bumped.  A record is well formed (`Record.WF`) when every stored phone's
  `oid` is below the counter, so a freshly allocated object is distinct from
  every stored one — exactly the situation in the Python heap.
-/

inductive PyErr where
  | valueError
  | attributeError
deriving DecidableEq, Repr

/-- Gregorian leap-year test, as in Python's `calendar`/`datetime`. -/
def isLeapYear (y : Nat) : Bool :=
  y % 4 == 0 && (y % 100 != 0 || y % 400 == 0)

/-- Number of days in month `m` (1-based) of year `y`, as in `datetime`. -/
def daysInMonth (y m : Nat) : Nat :=
  if m = 2 then (if isLeapYear y then 29 else 28)
  else if m = 4 ∨ m = 6 ∨ m = 9 ∨ m = 11 then 30
  else 31

/-- A Python `datetime.date` value (proleptic Gregorian calendar). -/
structure PyDate where
  year : Nat
  month : Nat
  day : Nat
deriving DecidableEq, Repr

/-- Days in the months of year `y` strictly before month `m`. -/
def daysBeforeMonth (y m : Nat) : Nat :=
  (List.range (m - 1)).foldl (fun acc i => acc + daysInMonth y (i + 1)) 0

/-- `date.toordinal()`: day number in the proleptic Gregorian calendar,
with day 1 = January 1 of year 1. -/
def PyDate.toOrdinal (d : PyDate) : Nat :=
  365 * (d.year - 1) + (d.year - 1) / 4 - (d.year - 1) / 100 + (d.year - 1) / 400
    + daysBeforeMonth d.year d.month + d.day

/-- The validity check `datetime.date` performs on construction
(`MINYEAR = 1`, `MAXYEAR = 9999`). -/
def validDate (y m d : Nat) : Bool :=
  decide (1 ≤ y ∧ y ≤ 9999 ∧ 1 ≤ m ∧ m ≤ 12 ∧ 1 ≤ d ∧ d ≤ daysInMonth y m)

/-- `d.replace(year = y)`: builds the same calendar date in year `y`,
re-running the construction validity check (so e.g. Feb 29 moved to a
non-leap year raises `ValueError`, modelled as `none`). -/
def PyDate.replaceYear (d : PyDate) (y : Nat) : Option PyDate :=
  if validDate y d.month d.day then some ⟨y, d.month, d.day⟩ else none

/-- A Python `datetime.datetime`: a date plus the time of day, here kept at
second granularity (`sec < 86400` for values produced by `datetime.now()`). -/
structure PyDateTime where
  date : PyDate
  sec : Nat
deriving DecidableEq, Repr

/-- Chronological position of a `datetime`, in seconds:
`toordinal() * 86400 + seconds-of-day`.  Python's comparison of valid
`datetime` values coincides with comparison of this number, and adding
`timedelta(days = 7)` adds exactly `7 * 86400` to it. -/
def PyDateTime.ts (t : PyDateTime) : Nat :=
  86400 * t.date.toOrdinal + t.sec

/-- Split a character list at every dot, as `"%d.%m.%Y"` parsing needs. -/
def splitDots : List Char → List (List Char)
  | [] => [[]]
  | '.' :: cs => [] :: splitDots cs
  | c :: cs =>
    match splitDots cs with
    | [] => [[c]]
    | g :: gs => (c :: g) :: gs

/-- Nonempty run of ASCII decimal digits. -/
def isDigits (cs : List Char) : Bool :=
  !cs.isEmpty && cs.all Char.isDigit

/-- Numeric value of a run of ASCII digits. -/
def compVal (cs : List Char) : Nat :=
  cs.foldl (fun a c => 10 * a + (c.toNat - 48)) 0

/-- `datetime.strptime(s, "%d.%m.%Y").date()`, returning `none` where Python
raises `ValueError`.  CPython's `_strptime` matches `%d` against one or two
digits, `%m` against one or two digits and `%Y` against exactly four digits,
with the two literal dots in between and nothing left over; a full match
therefore decomposes `s` as three dot-separated digit runs.  The matched
numbers are then passed to the `datetime` constructor, which enforces
`validDate`. -/
def parseBirthdayString (s : String) : Option PyDate :=
  match splitDots s.data with
  | [ds, ms, ys] =>
    if isDigits ds && decide (ds.length ≤ 2)
        && isDigits ms && decide (ms.length ≤ 2)
        && isDigits ys && decide (ys.length = 4) then
      if validDate (compVal ys) (compVal ms) (compVal ds) then
        some ⟨compVal ys, compVal ms, compVal ds⟩
      else none
    else none
  | _ => none

/-- Code-point ranges (inclusive, ASCII excluded) of the characters for
which CPython's `str.isdigit()` returns `True`: the Unicode characters of
`Numeric_Type` Decimal or Digit — Arabic-Indic and the other script digits,
superscripts and subscripts, circled and full-width digits, and so on.
Tabulated from `str.isdigit` itself over every code point. -/
def pyDigitRanges : List (Nat × Nat) :=
  [ (178, 179), (185, 185), (1632, 1641), (1776, 1785), (1984, 1993),
   (2406, 2415), (2534, 2543), (2662, 2671), (2790, 2799), (2918, 2927),
   (3046, 3055), (3174, 3183), (3302, 3311), (3430, 3439), (3558, 3567),
   (3664, 3673), (3792, 3801), (3872, 3881), (4160, 4169), (4240, 4249),
   (4969, 4977), (6112, 6121), (6160, 6169), (6470, 6479), (6608, 6618),
   (6784, 6793), (6800, 6809), (6992, 7001), (7088, 7097), (7232, 7241),
   (7248, 7257), (8304, 8304), (8308, 8313), (8320, 8329), (9312, 9320),
   (9332, 9340), (9352, 9360), (9450, 9450), (9461, 9469), (9471, 9471),
   (10102, 10110), (10112, 10120), (10122, 10130), (42528, 42537),
   (43216, 43225), (43264, 43273), (43472, 43481), (43504, 43513),
   (43600, 43609), (44016, 44025), (65296, 65305), (66720, 66729),
   (68160, 68163), (68912, 68921), (69216, 69224), (69714, 69722),
   (69734, 69743), (69872, 69881), (69942, 69951), (70096, 70105),
   (70384, 70393), (70736, 70745), (70864, 70873), (71248, 71257),
   (71360, 71369), (71472, 71481), (71904, 71913), (72016, 72025),
   (72784, 72793), (73040, 73049), (73120, 73129), (92768, 92777),
   (92864, 92873), (93008, 93017), (120782, 120831), (123200, 123209),
   (123632, 123641), (125264, 125273), (127232, 127242), (130032, 130041)]

/-- One character of a Python `str` passes `isdigit`: an ASCII decimal
digit, or one of the non-ASCII Unicode digit characters above. -/
def pyIsDigit (c : Char) : Bool :=
  c.isDigit || pyDigitRanges.any (fun r => decide (r.1 ≤ c.toNat ∧ c.toNat ≤ r.2))

/-- `str.isdigit()`: nonempty and every character a Unicode digit. -/
def strIsdigit (s : String) : Bool :=
  !s.data.isEmpty && s.data.all pyIsDigit

/-- The check in `Phone`'s `value` setter:
`len(value) == 10 and value.isdigit()`. -/
def phoneOk (s : String) : Bool :=
  decide (s.length = 10) && strIsdigit s

/-- A `Phone` object: the validated string plus its allocation number `oid`
(modelling Python object identity, see the header comment). -/
structure Phone where
  oid : Nat
  value : String
deriving DecidableEq, Repr

/-- `Phone(value)`: the `value` setter raises `ValueError` unless the string
is exactly 10 digits; otherwise the object stores the string unchanged. -/
def Phone.make (oid : Nat) (s : String) : Except PyErr Phone :=
  if phoneOk s then .ok ⟨oid, s⟩ else .error .valueError

/-- A `Birthday` object.  `Birthday.__init__` wraps its body in
`try ... except ValueError: pass`, so on unparsable input the object is
produced anyway with neither the `date` attribute nor the `value` attribute
set; `none` models the absent attribute. -/
structure Birthday where
  date : Option PyDate
  value : Option String
deriving DecidableEq, Repr

/-- `Birthday(value)`: parse `value` with `strptime(value, "%d.%m.%Y")`; on
success store the parsed date in `date` and the original string in `value`
(via `Field.__init__`); on failure the exception is swallowed and the object
is left with both attributes unset.  Construction itself never fails. -/
def Birthday.init (s : String) : Birthday :=
  match parseBirthdayString s with
  | some d => ⟨some d, some s⟩
  | none => ⟨none, none⟩

/-- `Field.__str__` on a `Birthday`: `str(self.value)`; reading the unset
attribute raises `AttributeError`. -/
def Birthday.str (b : Birthday) : Except PyErr String :=
  match b.value with
  | some v => .ok v
  | none => .error .attributeError

/-- A `Name` object: `Name(value)` raises `ValueError` on the empty string,
otherwise stores `value`. -/
structure Name where
  value : String
deriving DecidableEq, Repr

/-- A `Record`: a name, an ordered list of phone objects, an optional
birthday, and the allocation counter for phone-object identities. -/
structure Record where
  name : Name
  phones : List Phone
  birthday : Option Birthday
  nextOid : Nat
deriving DecidableEq, Repr

/-- `Record(name)`: constructs `Name(name)` (raising `ValueError` on an
empty name), an empty phone list and no birthday. -/
def Record.init (name : String) : Except PyErr Record :=
  if name.isEmpty then .error .valueError else .ok ⟨⟨name⟩, [], none, 0⟩

/-- `Record.add_phone`: validates the text as a `Phone` (raising
`ValueError` if invalid) and appends it. -/
def Record.add_phone (r : Record) (phone : String) : Except PyErr Record :=
  match Phone.make r.nextOid phone with
  | .ok p => .ok { r with phones := r.phones ++ [p], nextOid := r.nextOid + 1 }
  | .error e => .error e

/-- `list.remove(x)` where elements compare by identity (`oid`): drops the
first element with the given `oid`, or `none` (Python raises `ValueError`)
when no element has it. -/
def pyListRemoveById (oid : Nat) : List Phone → Option (List Phone)
  | [] => none
  | p :: ps =>
    if p.oid = oid then some ps
    else (pyListRemoveById oid ps).map (p :: ·)

/-- `Record.delete_phone`: `self.phones.remove(Phone(phone))`.  The argument
to `remove` is a *freshly constructed* `Phone` object; since `Field` defines
no `__eq__`, `remove` compares by object identity, so it looks for that
fresh object among the stored ones. -/
def Record.delete_phone (r : Record) (phone : String) : Except PyErr Record :=
  match Phone.make r.nextOid phone with
  | .error e => .error e
  | .ok fresh =>
    match pyListRemoveById fresh.oid r.phones with
    | some ps => .ok { r with phones := ps, nextOid := r.nextOid + 1 }
    | none => .error .valueError

/-- `Record.edit_phone`: the `for index in range(len(phones))` loop carries
an unconditional `break` at the end of its body, so only index 0 is ever
examined.  If the list is empty nothing happens; if `phones[0].value ==
old_phone` a freshly validated `Phone(new_phone)` replaces index 0 (raising
`ValueError` if `new_phone` is invalid); otherwise nothing happens.  No
exception is raised for a missing match. -/
def Record.edit_phone (r : Record) (oldPhone newPhone : String) : Except PyErr Record :=
  match r.phones with
  | [] => .ok r
  | p :: rest =>
    if p.value = oldPhone then
      match Phone.make r.nextOid newPhone with
      | .ok q => .ok { r with phones := q :: rest, nextOid := r.nextOid + 1 }
      | .error e => .error e
    else .ok r

/-- `Record.add_birthday`: always sets `self.birthday = Birthday(birthday)`
(which never raises, see `Birthday.init`). -/
def Record.add_birthday (r : Record) (birthday : String) : Record :=
  { r with birthday := some (Birthday.init birthday) }

/-- Well-formedness of the identity model: every stored phone object was
allocated before the current counter value. -/
def Record.WF (r : Record) : Prop :=
  ∀ p ∈ r.phones, p.oid < r.nextOid

instance (r : Record) : Decidable r.WF := by
  unfold Record.WF; infer_instance

/-- An `AddressBook` (`UserDict`): its `data` dict, modelled as an
insertion-ordered association list with unique keys, exactly how a Python
`dict` iterates. -/
abbrev AddressBook := List (String × Record)

/-- `self.data[k] = v` on a Python dict: replace the value in place if the
key is present (keeping its position), else append a new entry. -/
def dictSet (b : AddressBook) (k : String) (v : Record) : AddressBook :=
  match b with
  | [] => [(k, v)]
  | (k2, v2) :: rest =>
    if k2 = k then (k2, v) :: rest else (k2, v2) :: dictSet rest k v

/-- `AddressBook.add_record`: `self.data[record.name.value] = record`. -/
def AddressBook.add_record (b : AddressBook) (r : Record) : AddressBook :=
  dictSet b r.name.value r

/-- `AddressBook.delete`: `if name in self.data: del self.data[name]` —
removes the entry if present, silently does nothing otherwise. -/
def AddressBook.delete (b : AddressBook) (name : String) : AddressBook :=
  match b with
  | [] => []
  | (k, v) :: rest =>
    if k = name then rest else (k, v) :: AddressBook.delete rest name

/-- `AddressBook.find`: the record stored under `name`, else `None`. -/
def AddressBook.find (b : AddressBook) (name : String) : Option Record :=
  match b with
  | [] => none
  | (k, v) :: rest => if k = name then some v else AddressBook.find rest name

/-- `self.data.values()` in iteration order. -/
def AddressBook.values (b : AddressBook) : List Record :=
  b.map (fun kv => kv.2)

/-- The body of `get_upcoming_birthdays`, processing `data.values()` in
order with `today` (the `datetime.now()` value) given as `now`.  For each
contact: skip if `birthday` is `None`; reading `birthday.date` on a
half-initialized `Birthday` raises `AttributeError`; otherwise re-parse
`birthday.value` with `strptime` (raising `ValueError` on failure),
`combine` with midnight, `replace(year = today.year)` (raising `ValueError`
when the result is not a valid date), and append the contact when
`today <= candidate <= today + timedelta(days=7)`, or in the dead branch
`today + timedelta(days=7) < today and candidate.year == today.year + 1`. -/
def gubList (now : PyDateTime) : List Record → Except PyErr (List Record)
  | [] => .ok []
  | c :: rest =>
    match c.birthday with
    | none => gubList now rest
    | some b =>
      match b.date with
      | none => .error .attributeError
      | some _ =>
        match b.value with
        | none => .error .attributeError
        | some v =>
          match parseBirthdayString v with
          | none => .error .valueError
          | some bd =>
            match bd.replaceYear now.date.year with
            | none => .error .valueError
            | some cand =>
              match gubList now rest with
              | .error e => .error e
              | .ok tail =>
                if now.ts ≤ 86400 * cand.toOrdinal
                    ∧ 86400 * cand.toOrdinal ≤ now.ts + 7 * 86400 then
                  .ok (c :: tail)
                else if now.ts + 7 * 86400 < now.ts
                    ∧ cand.year = now.date.year + 1 then
                  .ok (c :: tail)
                else .ok tail

/-- `AddressBook.get_upcoming_birthdays`, with `datetime.now()` passed in
explicitly as `now`. -/
def AddressBook.get_upcoming_birthdays (b : AddressBook) (now : PyDateTime) :
    Except PyErr (List Record) :=
  gubList now (AddressBook.values b)

instance {ε α : Type} [DecidableEq ε] [DecidableEq α] : DecidableEq (Except ε α) := fun x y =>
  match x, y with
  | .ok a, .ok b =>
    if h : a = b then .isTrue (by rw [h]) else .isFalse (fun hc => by injection hc; contradiction)
  | .ok _, .error _ => .isFalse (fun hc => Except.noConfusion hc)
  | .error _, .ok _ => .isFalse (fun hc => Except.noConfusion hc)
  | .error e, .error f =>
    if h : e = f then .isTrue (by rw [h]) else .isFalse (fun hc => by injection hc; contradiction)

/-- Spec-side phone validity, written from the specification's words: exactly
10 characters, each an ASCII decimal digit. -/
def tenAsciiDigits (s : String) : Prop :=
  s.length = 10 ∧ ∀ c ∈ s.data, c.isDigit = true

instance (s : String) : Decidable (tenAsciiDigits s) := by
  unfold tenAsciiDigits; infer_instance

/-- Phone validity as the program enforces it, in spec wording: exactly 10
characters, each a digit in the sense of Python's `str.isdigit` — the ASCII
decimal digits together with the other Unicode digit characters. -/
def tenPyDigits (s : String) : Prop :=
  s.length = 10 ∧ ∀ c ∈ s.data, pyIsDigit c = true

instance (s : String) : Decidable (tenPyDigits s) := by
  unfold tenPyDigits; infer_instance

/-- A record whose birthday data lets `get_upcoming_birthdays` process it
without raising for reference year `year`: either no birthday, or a fully
initialized one whose stored text re-parses and whose parsed date stays a
valid date after `replace(year = year)`. -/
def birthdayOk (year : Nat) (c : Record) : Bool :=
  match c.birthday with
  | none => true
  | some b =>
    match b.date with
    | none => false
    | some _ =>
      match b.value with
      | none => false
      | some v =>
        match parseBirthdayString v with
        | none => false
        | some bd => (bd.replaceYear year).isSome

/-- The window membership test `get_upcoming_birthdays` applies to a record
that it processes without raising: the candidate (the re-parsed birthday
with its year replaced by `now`'s year, at midnight) lies in the chronological
interval from `now` to `now + timedelta(days = 7)`. -/
def inUpcomingWindow (now : PyDateTime) (c : Record) : Bool :=
  match c.birthday with
  | none => false
  | some b =>
    match b.value with
    | none => false
    | some v =>
      match parseBirthdayString v with
      | none => false
      | some bd =>
        match bd.replaceYear now.date.year with
        | none => false
        | some cand =>
          decide (now.ts ≤ 86400 * cand.toOrdinal
            ∧ 86400 * cand.toOrdinal ≤ now.ts + 7 * 86400)

/-- The `AddressBook` key invariant: every stored record's `Name.value`
equals the key it is stored under. -/
def BookWF (b : AddressBook) : Prop :=
  ∀ kv ∈ b, kv.2.name.value = kv.1

instance (b : AddressBook) : Decidable (BookWF b) := by
  unfold BookWF; infer_instance

/-- Address books reachable from the empty book through the mutating
operations (`find` and `get_upcoming_birthdays` do not change the book,
which in this embedding is immediate from their types). -/
inductive ReachableBook : AddressBook → Prop where
  | empty : ReachableBook []
  | add (b : AddressBook) (r : Record) :
      ReachableBook b → ReachableBook (AddressBook.add_record b r)
  | del (b : AddressBook) (n : String) :
      ReachableBook b → ReachableBook (AddressBook.delete b n)

/-! ### Helper lemmas -/

/-- One-step unfolding of `gubList` on a record without a birthday. -/
theorem gubList_skip (now : PyDateTime) (n : Name) (ph : List Phone) (k : Nat)
    (rest : List Record) :
    gubList now (⟨n, ph, none, k⟩ :: rest) = gubList now rest := rfl

/-- One-step unfolding of `gubList` on a record whose `Birthday` lacks the
`date` attribute. -/
theorem gubList_attr_date (now : PyDateTime) (n : Name) (ph : List Phone)
    (v : Option String) (k : Nat) (rest : List Record) :
    gubList now (⟨n, ph, some ⟨none, v⟩, k⟩ :: rest) = .error .attributeError := rfl

/-- One-step unfolding of `gubList` on a record whose `Birthday` has a `date`
attribute but no `value` attribute. -/
theorem gubList_attr_value (now : PyDateTime) (n : Name) (ph : List Phone)
    (d : PyDate) (k : Nat) (rest : List Record) :
    gubList now (⟨n, ph, some ⟨some d, none⟩, k⟩ :: rest) = .error .attributeError := rfl

/-- One-step unfolding of `gubList` on a record with a fully initialized
`Birthday`. -/
theorem gubList_cons_full (now : PyDateTime) (n : Name) (ph : List Phone)
    (d : PyDate) (v : String) (k : Nat) (rest : List Record) :
    gubList now (⟨n, ph, some ⟨some d, some v⟩, k⟩ :: rest) =
      match parseBirthdayString v with
      | none => .error .valueError
      | some bd =>
        match bd.replaceYear now.date.year with
        | none => .error .valueError
        | some cand =>
          match gubList now rest with
          | .error e => .error e
          | .ok tail =>
            if now.ts ≤ 86400 * cand.toOrdinal
                ∧ 86400 * cand.toOrdinal ≤ now.ts + 7 * 86400 then
              .ok (⟨n, ph, some ⟨some d, some v⟩, k⟩ :: tail)
            else if now.ts + 7 * 86400 < now.ts
                ∧ cand.year = now.date.year + 1 then
              .ok (⟨n, ph, some ⟨some d, some v⟩, k⟩ :: tail)
            else .ok tail := rfl

/-- Unfolding of `inUpcomingWindow` on a record with a set `value`. -/
theorem inUpcomingWindow_full (now : PyDateTime) (n : Name) (ph : List Phone)
    (od : Option PyDate) (v : String) (k : Nat) :
    inUpcomingWindow now ⟨n, ph, some ⟨od, some v⟩, k⟩ =
      match parseBirthdayString v with
      | none => false
      | some bd =>
        match bd.replaceYear now.date.year with
        | none => false
        | some cand =>
          decide (now.ts ≤ 86400 * cand.toOrdinal
            ∧ 86400 * cand.toOrdinal ≤ now.ts + 7 * 86400) := rfl

/-- The guard of the second branch of the window test is never true. -/
theorem dead_branch_unreachable (now : PyDateTime) (cand : PyDate) :
    ¬ (now.ts + 7 * 86400 < now.ts ∧ cand.year = now.date.year + 1) := by
  rintro ⟨h, -⟩
  omega

/-- `phoneOk` spelt out as a predicate on the string's characters. -/
theorem phoneOk_iff (s : String) : phoneOk s = true ↔ tenPyDigits s := by
  obtain ⟨cs⟩ := s
  unfold phoneOk strIsdigit tenPyDigits
  simp only [Bool.and_eq_true, decide_eq_true_eq, List.all_eq_true,
    Bool.not_eq_true', String.length, String.data]
  constructor
  · rintro ⟨h10, -, hall⟩
    exact ⟨h10, hall⟩
  · rintro ⟨h10, hall⟩
    refine ⟨h10, ?_, hall⟩
    cases cs with
    | nil => simp at h10
    | cons c cs => rfl

/-- Every string of ASCII digits also passes the Unicode digit test. -/
theorem tenAsciiDigits_tenPyDigits (s : String) (h : tenAsciiDigits s) :
    tenPyDigits s := by
  refine ⟨h.1, fun c hc => ?_⟩
  unfold pyIsDigit
  rw [h.2 c hc]
  rfl

/-- When every record is processable without raising, `gubList` computes the
window filter. -/
theorem gubList_filter (now : PyDateTime) (rs : List Record)
    (h : ∀ c ∈ rs, birthdayOk now.date.year c = true) :
    gubList now rs = .ok (rs.filter (inUpcomingWindow now)) := by
  induction rs with
  | nil => rfl
  | cons c rest ih =>
    have hc := h c (List.mem_cons_self c rest)
    have hrest := ih (fun x hx => h x (List.mem_cons_of_mem c hx))
    obtain ⟨n, ph, ob, k⟩ := c
    match ob with
    | none =>
      rw [gubList_skip, hrest, List.filter_cons]
      norm_num [inUpcomingWindow]
    | some ⟨none, v⟩ =>
      exact absurd hc (by simp [birthdayOk])
    | some ⟨some d, none⟩ =>
      exact absurd hc (by simp [birthdayOk])
    | some ⟨some d, some v⟩ =>
      rw [gubList_cons_full, hrest]
      unfold birthdayOk at hc
      simp only at hc
      rcases hp : parseBirthdayString v with - | bd
      · rw [hp] at hc; simp at hc
      · rw [hp] at hc
        simp only at hc
        rcases hr : bd.replaceYear now.date.year with - | cand
        · rw [hr] at hc; simp at hc
        · simp only [hp, hr]
          rw [List.filter_cons, inUpcomingWindow_full, hp]
          simp only [hr]
          by_cases hw : now.ts ≤ 86400 * cand.toOrdinal
              ∧ 86400 * cand.toOrdinal ≤ now.ts + 7 * 86400
          · rw [if_pos hw, if_pos (by simpa using hw)]
          · rw [if_neg hw, if_neg (dead_branch_unreachable now cand),
              if_neg (by simpa using hw)]

/-- A record with a fully initialized birthday whose year replacement fails
makes `gubList` raise `ValueError`. -/
theorem gubList_replace_fail (now : PyDateTime) (n : Name) (ph : List Phone)
    (d : PyDate) (v : String) (k : Nat) (rest : List Record) (bd : PyDate)
    (hp : parseBirthdayString v = some bd)
    (hr : bd.replaceYear now.date.year = none) :
    gubList now (⟨n, ph, some ⟨some d, some v⟩, k⟩ :: rest) = .error .valueError := by
  rw [gubList_cons_full, hp]
  simp only [hr]

/-- `dictSet` with a key equal to the record's own name preserves the key
invariant. -/
theorem dictSet_BookWF (b : AddressBook) (r : Record) (h : BookWF b) :
    BookWF (dictSet b r.name.value r) := by
  induction b with
  | nil =>
    intro kv hkv
    simp only [dictSet, List.mem_singleton] at hkv
    subst hkv
    rfl
  | cons e rest ih =>
    obtain ⟨k2, v2⟩ := e
    unfold dictSet
    by_cases hk : k2 = r.name.value
    · rw [if_pos hk]
      intro kv hkv
      rcases List.mem_cons.mp hkv with hh | ht
      · subst hh; exact hk.symm
      · exact h kv (List.mem_cons_of_mem _ ht)
    · rw [if_neg hk]
      intro kv hkv
      rcases List.mem_cons.mp hkv with hh | ht
      · subst hh; exact h _ (List.mem_cons_self _ _)
      · exact ih (fun x hx => h x (List.mem_cons_of_mem _ hx)) kv ht

/-- Every entry of `AddressBook.delete b n` is an entry of `b`. -/
theorem mem_delete (b : AddressBook) (n : String) (kv : String × Record)
    (h : kv ∈ AddressBook.delete b n) : kv ∈ b := by
  induction b with
  | nil => exact absurd h (by simp [AddressBook.delete])
  | cons e rest ih =>
    unfold AddressBook.delete at h
    by_cases hk : e.1 = n
    · rw [if_pos hk] at h
      exact List.mem_cons_of_mem _ h
    · rw [if_neg hk] at h
      rcases List.mem_cons.mp h with hh | ht
      · subst hh; exact List.mem_cons_self _ _
      · exact List.mem_cons_of_mem _ (ih ht)

/-- `list.remove` by identity fails when no element carries the wanted
`oid`. -/
theorem pyListRemoveById_none (oid : Nat) (l : List Phone)
    (h : ∀ p ∈ l, p.oid ≠ oid) : pyListRemoveById oid l = none := by
  induction l with
  | nil => rfl
  | cons p ps ih =>
    unfold pyListRemoveById
    rw [if_neg (h p (List.mem_cons_self p ps)),
      ih (fun q hq => h q (List.mem_cons_of_mem p hq))]
    rfl

/-! ### Claim theorems -/

/-- C6 counterexample: a string of ten Arabic-Indic digit characters — none
of them an ASCII decimal digit — is accepted by `Phone` and stored
unchanged, because `len` is 10 and Python's `str.isdigit` is `True` on
every Unicode digit character; the claim asserts construction fails for any
string containing a character that is not an ASCII decimal digit. -/
theorem phone_unicode_digit_counterexample :
    Phone.make 0 "١٢٣٤٥٦٧٨٩٠" = .ok ⟨0, "١٢٣٤٥٦٧٨٩٠"⟩
    ∧ ¬ tenAsciiDigits "١٢٣٤٥٦٧٨٩٠" :=
  ⟨by decide, by decide⟩

/-- C6 amended: `Phone(s)` succeeds if and only if `s` has exactly 10
characters, each a decimal-digit character in the sense of Python's
`str.isdigit` (the ASCII digits, but also the other Unicode digit
characters such as the Arabic-Indic digits); on success the stored `.value`
equals `s` unchanged, and for every other `s` construction fails with the
invalid-phone `ValueError`. -/
theorem phone_make_characterization (oid : Nat) (s : String) :
    (Phone.make oid s = .ok ⟨oid, s⟩ ↔ tenPyDigits s)
    ∧ (¬ tenPyDigits s → Phone.make oid s = .error .valueError) := by
  constructor
  · constructor
    · intro h
      by_cases hok : phoneOk s = true
      · exact (phoneOk_iff s).mp hok
      · unfold Phone.make at h
        rw [if_neg hok] at h
        cases h
    · intro h
      unfold Phone.make
      rw [if_pos ((phoneOk_iff s).mpr h)]
  · intro h
    unfold Phone.make
    rw [if_neg (fun hok => h ((phoneOk_iff s).mp hok))]

/-- Witness for C6 at concrete inputs. -/
theorem phone_make_characterization_witness :
    Phone.make 0 "1234567890" = .ok ⟨0, "1234567890"⟩
    ∧ Phone.make 0 "12345678a0" = .error .valueError
    ∧ Phone.make 0 "123456789" = .error .valueError :=
  ⟨(phone_make_characterization 0 "1234567890").1.mpr (by decide),
    (phone_make_characterization 0 "12345678a0").2 (by decide),
    (phone_make_characterization 0 "123456789").2 (by decide)⟩

/-- C10: constructing `Birthday(s)` from text that parses under `DD.MM.YYYY`
and formatting it with `Field.__str__` yields `s` itself: the original text
is stored in `value` and is what display uses. -/
theorem birthday_roundtrip (s : String) (d : PyDate)
    (h : parseBirthdayString s = some d) :
    (Birthday.init s).str = .ok s := by
  unfold Birthday.init
  rw [h]
  rfl

/-- Witness for C10: the spec's round-trip scenario. -/
theorem birthday_roundtrip_witness :
    (Birthday.init "24.08.1991").str = .ok "24.08.1991" :=
  birthday_roundtrip "24.08.1991" ⟨1991, 8, 24⟩ (by decide)

/-- C2 (code behavior at the claim's inputs): on text that does not parse
under `DD.MM.YYYY`, `Birthday(s)` does not fail at all — the `ValueError`
is swallowed and an object with neither `date` nor `value` set is produced,
contradicting the claimed explicit construction error. -/
theorem birthday_unparsable_silent (s : String)
    (h : parseBirthdayString s = none) :
    Birthday.init s = ⟨none, none⟩ := by
  unfold Birthday.init
  rw [h]

/-- Witness for C2 at a concrete unparsable string. -/
theorem birthday_unparsable_silent_witness :
    Birthday.init "hello" = ⟨none, none⟩ :=
  birthday_unparsable_silent "hello" (by decide)

/-- C1 (code behavior): `delete_phone` never succeeds on a well-formed
record — whatever the argument, it raises `ValueError`: an invalid string
fails phone validation, and for a valid string `list.remove` compares the
freshly constructed `Phone` object by identity (no `__eq__` is defined), so
it matches no stored phone even when one holds the same digits. -/
theorem delete_phone_always_raises (r : Record) (h : r.WF) (p : String) :
    r.delete_phone p = .error .valueError := by
  unfold Record.delete_phone Phone.make
  by_cases hok : phoneOk p = true
  · rw [if_pos hok]
    simp only
    rw [pyListRemoveById_none r.nextOid r.phones
      (fun q hq => Nat.ne_of_lt (h q hq))]
  · rw [if_neg hok]

/-- Witness for C1: the record stores a phone whose value is exactly the
deleted text, yet `delete_phone` raises. -/
theorem delete_phone_always_raises_witness :
    ((⟨⟨"Bob"⟩, [⟨0, "1234567890"⟩], none, 1⟩ : Record).phones.map Phone.value
        = ["1234567890"])
    ∧ (⟨⟨"Bob"⟩, [⟨0, "1234567890"⟩], none, 1⟩ : Record).delete_phone "1234567890"
        = .error .valueError :=
  ⟨by decide, delete_phone_always_raises _ (by decide) _⟩

/-- C4 counterexample: on a record storing only the phone `"1234567890"`,
`edit_phone("1111111111", "0987654321")` matches no stored phone, yet it
returns successfully with the record unchanged instead of failing with
`NotFoundError`. -/
theorem edit_phone_missing_counterexample :
    (∀ p ∈ (⟨⟨"Ann"⟩, [⟨0, "1234567890"⟩], none, 1⟩ : Record).phones,
        p.value ≠ "1111111111")
    ∧ (⟨⟨"Ann"⟩, [⟨0, "1234567890"⟩], none, 1⟩ : Record).edit_phone
        "1111111111" "0987654321"
      = .ok ⟨⟨"Ann"⟩, [⟨0, "1234567890"⟩], none, 1⟩ :=
  ⟨by decide, by decide⟩

/-- C4 amended: if no phone in the record's list has value equal to `old`,
`edit_phone(old, new)` silently returns with the record unchanged; no
exception of any kind is raised. -/
theorem edit_phone_missing_is_noop (r : Record) (o n : String)
    (h : ∀ p ∈ r.phones, p.value ≠ o) : r.edit_phone o n = .ok r := by
  obtain ⟨n0, ph, ob, k⟩ := r
  cases ph with
  | nil => rfl
  | cons p rest =>
    have hp : p.value ≠ o := h p (List.mem_cons_self p rest)
    simp only [Record.edit_phone]
    rw [if_neg hp]

/-- Witness for C4's amended theorem at a concrete record. -/
theorem edit_phone_missing_is_noop_witness :
    (⟨⟨"Eve"⟩, [⟨0, "5550001111"⟩], none, 1⟩ : Record).edit_phone
      "9999999999" "0987654321"
      = .ok ⟨⟨"Eve"⟩, [⟨0, "5550001111"⟩], none, 1⟩ :=
  edit_phone_missing_is_noop _ _ _ (by decide)

/-- C7: when the first stored phone's value equals `old` and `new` is a
valid 10-digit string, `edit_phone(old, new)` replaces index 0 with the new
phone and leaves every later phone unchanged. -/
theorem edit_phone_replaces_first (r : Record) (p : Phone) (rest : List Phone)
    (o n : String) (h1 : r.phones = p :: rest) (h2 : p.value = o)
    (h3 : tenAsciiDigits n) :
    r.edit_phone o n
      = .ok { r with phones := ⟨r.nextOid, n⟩ :: rest, nextOid := r.nextOid + 1 } := by
  unfold Record.edit_phone
  rw [h1]
  simp only
  rw [if_pos h2]
  unfold Phone.make
  rw [if_pos ((phoneOk_iff n).mpr (tenAsciiDigits_tenPyDigits n h3))]

/-- Witness for C7: the spec's scenario — a record whose only phone is
`"1234567890"` ends with exactly one phone, `"0987654321"`. -/
theorem edit_phone_replaces_first_witness :
    (⟨⟨"Kim"⟩, [⟨0, "1234567890"⟩], none, 1⟩ : Record).edit_phone
      "1234567890" "0987654321"
      = .ok ⟨⟨"Kim"⟩, [⟨1, "0987654321"⟩], none, 2⟩ :=
  edit_phone_replaces_first _ _ _ _ _ rfl rfl (by decide)

/-- C3 counterexample: reference moment `2024-08-20 12:00:00` (`datetime.now()`
at noon), one record with valid birthday `20.08.1990`.  The candidate date is
`2024-08-20`, which lies inside the claim's inclusive date window
`[2024-08-20, 2024-08-27]` (fourth and fifth conjuncts), yet the record is
not returned: the code compares the candidate at midnight against the full
`datetime.now()` timestamp, which noon has already passed. -/
theorem gub_window_not_inclusive_counterexample :
    AddressBook.get_upcoming_birthdays
        [("Dana", ⟨⟨"Dana"⟩, [], some (Birthday.init "20.08.1990"), 0⟩)]
        ⟨⟨2024, 8, 20⟩, 43200⟩ = .ok []
    ∧ parseBirthdayString "20.08.1990" = some ⟨1990, 8, 20⟩
    ∧ PyDate.replaceYear ⟨1990, 8, 20⟩ 2024 = some ⟨2024, 8, 20⟩
    ∧ PyDate.toOrdinal ⟨2024, 8, 20⟩ ≤ PyDate.toOrdinal ⟨2024, 8, 20⟩
    ∧ PyDate.toOrdinal ⟨2024, 8, 20⟩ ≤ PyDate.toOrdinal ⟨2024, 8, 20⟩ + 7 :=
  ⟨by decide, by decide, by decide, Nat.le_refl _, Nat.le_add_right _ _⟩

/-- C3 amended: for every reference instant `now` and every book whose
records all carry either no birthday or a fully initialized, re-parsable one
whose year replacement succeeds, `get_upcoming_birthdays` returns exactly
those records whose candidate date (birthday with year replaced by `now`'s
year, taken at midnight) satisfies `now <= candidate <= now + 7 days` as
full timestamps; when `now` is exactly midnight this is the claimed
inclusive date window, and at any later time of day a candidate equal to
`now`'s own date is excluded. -/
theorem gub_returns_window_filter (now : PyDateTime) (b : AddressBook)
    (h : ∀ c ∈ AddressBook.values b, birthdayOk now.date.year c = true) :
    AddressBook.get_upcoming_birthdays b now
      = .ok ((AddressBook.values b).filter (inUpcomingWindow now)) := by
  unfold AddressBook.get_upcoming_birthdays
  exact gubList_filter now _ h

/-- Witness for C3's amended theorem: the spec's scenario — with reference
date `2024-08-20` (at noon), Alice with birthday `24.08.1991` is returned. -/
theorem gub_returns_window_filter_witness :
    AddressBook.get_upcoming_birthdays
      [("Alice", ⟨⟨"Alice"⟩, [], some (Birthday.init "24.08.1991"), 0⟩)]
      ⟨⟨2024, 8, 20⟩, 43200⟩
      = .ok [⟨⟨"Alice"⟩, [], some (Birthday.init "24.08.1991"), 0⟩] := by
  rw [gub_returns_window_filter ⟨⟨2024, 8, 20⟩, 43200⟩
    [("Alice", ⟨⟨"Alice"⟩, [], some (Birthday.init "24.08.1991"), 0⟩)] (by decide)]
  decide

/-- C5 (code behavior at the claim's inputs): a stored birthday of Feb 29
(here `29.02.2000`, which parses) makes `get_upcoming_birthdays` raise
`ValueError` whenever the reference year is not a leap year (here 2023, at
any time of day): `candidate.replace(year=2023)` re-validates the date and
Feb 29, 2023 does not exist. -/
theorem gub_feb29_raises (sec : Nat) :
    AddressBook.get_upcoming_birthdays
      [("Leap", ⟨⟨"Leap"⟩, [], some (Birthday.init "29.02.2000"), 0⟩)]
      ⟨⟨2023, 2, 25⟩, sec⟩ = .error .valueError := by
  have hp : parseBirthdayString "29.02.2000" = some ⟨2000, 2, 29⟩ := by decide
  have hb : Birthday.init "29.02.2000" = ⟨some ⟨2000, 2, 29⟩, some "29.02.2000"⟩ := by
    unfold Birthday.init; rw [hp]
  show gubList ⟨⟨2023, 2, 25⟩, sec⟩
    [⟨⟨"Leap"⟩, [], some (Birthday.init "29.02.2000"), 0⟩] = .error .valueError
  rw [hb]
  have hr : PyDate.replaceYear ⟨2000, 2, 29⟩ 2023 = none := by decide
  exact gubList_replace_fail _ _ _ _ _ _ _ _ hp hr

/-- C8: every address book reachable from the empty book by `add_record` and
`delete` operations (with `find` and `get_upcoming_birthdays` leaving the
book unchanged) stores every record under the key `record.name.value`. -/
theorem reachable_book_key_invariant (b : AddressBook) (h : ReachableBook b) :
    BookWF b := by
  induction h with
  | empty => intro kv hkv; cases hkv
  | add b r _ ih => exact dictSet_BookWF b r ih
  | del b n _ ih => exact fun kv hkv => ih kv (mem_delete b n kv hkv)

/-- Witness for C8: a concrete reachable book satisfies the key invariant. -/
theorem reachable_book_key_invariant_witness :
    BookWF (AddressBook.delete
      (AddressBook.add_record
        (AddressBook.add_record [] ⟨⟨"Bob"⟩, [⟨0, "1234567890"⟩], none, 1⟩)
        ⟨⟨"Ann"⟩, [], none, 0⟩)
      "Bob") :=
  reachable_book_key_invariant _
    (.del _ "Bob" (.add _ _ (.add _ _ .empty)))

/-- C9: a record whose `Birthday` was constructed from unparsable text
(leaving `date` and `value` unset), placed in a book built by the public
operations, makes `get_upcoming_birthdays` raise `AttributeError` for every
reference instant, instead of skipping the record: the query is not total. -/
theorem gub_not_total_on_bad_birthday :
    ∃ r : Record, Record.init "Bob" = .ok r
      ∧ ∀ now : PyDateTime,
        AddressBook.get_upcoming_birthdays
          (AddressBook.add_record [] (r.add_birthday "every-day")) now
        = .error .attributeError := by
  refine ⟨⟨⟨"Bob"⟩, [], none, 0⟩, rfl, fun now => ?_⟩
  have hb : Birthday.init "every-day" = ⟨none, none⟩ := by
    unfold Birthday.init
    rw [(by decide : parseBirthdayString "every-day" = none)]
  show gubList now
    [⟨⟨"Bob"⟩, [], some (Birthday.init "every-day"), 0⟩] = .error .attributeError
  rw [hb]
  exact gubList_attr_date now _ _ _ _ _
